import Mathlib

/-! Verification of the quiz-backend core logic (session issuance, completion
dedup, submission evaluation, status query) against its two server
variants: the Flask server (`server.py`) and the Vercel serverless handler
(`api/index.py`).  Every definition below is a direct shallow embedding of
the corresponding Python function; external effects (the Perk award call,
`time.time()`, `datetime.now()`, `hashlib.sha256`) are passed in as
explicit parameters.
-/

set_option maxHeartbeats 1000000

/-- A quiz configuration entry, as in the `QUIZ_CONFIG` dictionaries. -/
structure QuizConfig where
  name : String
  total_questions : Int
  passing_score : Int
  points : Int
  action_title : String
  completion_limit : Int
  deriving Repr, DecidableEq

/-- The opaque client-supplied answers payload (`answers` JSON object). -/
abbrev Answers := List (String × Int)

/-- A value of the `completed_quizzes` dictionary: completion timestamp
(`datetime.now().isoformat()`), submitted score, raw answers. -/
structure CompletionRecord where
  timestamp : String
  score : Int
  answers : Answers
  deriving Repr, DecidableEq

/-- The in-memory `completed_quizzes` dictionary, modelled as an
association list from key strings to completion records (Python `dict`
semantics: assignment replaces the binding of an existing key). -/
abbrev Store := List (String × CompletionRecord)

/-- Python dict membership / `completed_quizzes.get`-style lookup. -/
def storeLookup : Store → String → Option CompletionRecord
  | [], _ => none
  | (k, v) :: rest, key => if k = key then some v else storeLookup rest key

/-- Python dict assignment `completed_quizzes[key] = value`: replaces the
binding if the key is present, otherwise appends it. -/
def storeInsert : Store → String → CompletionRecord → Store
  | [], key, v => [(key, v)]
  | (k, w) :: rest, key, v =>
      if k = key then (key, v) :: rest else (k, w) :: storeInsert rest key v

/-- The completion-store key `f"{email}_{quiz_id}"`. -/
def completionKey (email quiz_id : String) : String :=
  email ++ "_" ++ quiz_id

/-- Embeds `has_completed_quiz` (server.py lines 75-78): membership of the
`f"{email}_{quiz_id}"` key in `completed_quizzes`. -/
def has_completed_quiz (store : Store) (email quiz_id : String) : Bool :=
  (storeLookup store (completionKey email quiz_id)).isSome

/-- Embeds `has_completed_quiz` of api/index.py (lines 45-48); textually the same
function as the Flask variant's. -/
def api_has_completed_quiz (store : Store) (email quiz_id : String) : Bool :=
  (storeLookup store (completionKey email quiz_id)).isSome

/-- Lookup in a `QUIZ_CONFIG` dictionary (`quiz_id in QUIZ_CONFIG` /
`QUIZ_CONFIG[quiz_id]`). -/
def lookupConfig : List (String × QuizConfig) → String → Option QuizConfig
  | [], _ => none
  | (k, c) :: rest, q => if q = k then some c else lookupConfig rest q

/-- Embeds `QUIZ_CONFIG` of server.py (lines 32-57): three registered quizzes. -/
def SERVER_QUIZ_CONFIG : List (String × QuizConfig) :=
  [("grooming_mastery",
    ⟨"Grooming Mastery Quiz", 5, 3, 50, "Completed Grooming Mastery Quiz", 1⟩),
   ("product_knowledge",
    ⟨"Product Knowledge Challenge", 4, 3, 40, "Completed Product Knowledge Challenge", 1⟩),
   ("skin_type",
    ⟨"Find Your Skin Type Quiz", 6, 6, 30, "Completed Skin Type Assessment", 1⟩)]

/-- Embeds `QUIZ_CONFIG` of api/index.py (lines 24-33): only `grooming_mastery`. -/
def API_QUIZ_CONFIG : List (String × QuizConfig) :=
  [("grooming_mastery",
    ⟨"Grooming Mastery Quiz", 5, 3, 50, "Completed Grooming Mastery Quiz", 1⟩)]

/-- Python truthiness of an optional string (`if not x`): absent (`None`)
and the empty string are falsy. -/
def strTruthy : Option String → Bool
  | none => false
  | some s => !(s = "")

/-- Applying Python truthiness as a guard (`x if x else None`): used to
model `email = get_user_email_from_session(...); if not email:`. -/
def truthyVal : Option String → Option String
  | none => none
  | some s => if s = "" then none else some s

/-- Python `str.split('_')` on a list of characters: splits at every
occurrence of the separator, keeping empty segments (so the result is
always non-empty). -/
def splitOnChar (sep : Char) : List Char → List (List Char)
  | [] => [[]]
  | c :: cs =>
      match splitOnChar sep cs, decide (c = sep) with
      | r, true => [] :: r
      | [], false => [[c]]
      | h :: t, false => (c :: h) :: t

/-- Embeds `get_user_email_from_session` (server.py lines 60-72): split the
session id on `'_'`; if there are at least two parts, the first part is
the email, otherwise `None`. -/
def get_user_email_from_session (session_id : String) : Option String :=
  let parts := splitOnChar '_' session_id.data
  if 2 ≤ parts.length then parts.head?.map String.mk else none

/-- Embeds `get_user_email_from_session` of api/index.py (lines 35-43); textually
the same function as the Flask variant's. -/
def api_get_user_email_from_session (session_id : String) : Option String :=
  let parts := splitOnChar '_' session_id.data
  if 2 ≤ parts.length then parts.head?.map String.mk else none

/-- One invocation of `award_points`: the arguments of the outbound
`PUT /participants/points` call. -/
structure AwardCall where
  email : String
  points : Int
  action_title : String
  completion_limit : Int
  deriving Repr, DecidableEq

/-- An HTTP-analogous JSON response: the status code together with the
fields the two servers actually emit (absent fields are `none`). -/
structure Response where
  status : Nat
  error : Option String
  message : Option String
  success : Option Bool
  passed : Option Bool
  score : Option Int
  passing_score : Option Int
  points_awarded : Option Int
  deriving Repr, DecidableEq

/-- Response `{"error": "Missing required fields"}`, 400. -/
def missingFieldsResp : Response :=
  ⟨400, some "Missing required fields", none, none, none, none, none, none⟩

/-- Response `{"error": "Invalid quiz ID"}`, 400. -/
def invalidQuizResp : Response :=
  ⟨400, some "Invalid quiz ID", none, none, none, none, none, none⟩

/-- Response `{"error": "Invalid session"}`, 401. -/
def invalidSessionResp : Response :=
  ⟨401, some "Invalid session", none, none, none, none, none, none⟩

/-- The already-completed rejection of submit, 400. -/
def alreadySubmitResp : Response :=
  ⟨400, some "Quiz already completed",
   some "You have already completed this quiz.", none, none, none, none, none⟩

/-- Response `{"error": "Invalid score"}`, 400. -/
def invalidScoreResp : Response :=
  ⟨400, some "Invalid score", none, none, none, none, none, none⟩

/-- The passing-submission success response, 200. -/
def passedResp (score : Int) (cfg : QuizConfig) : Response :=
  ⟨200, none,
   some ("Congratulations! You earned " ++ toString cfg.points ++ " points!"),
   some true, some true, some score, some cfg.passing_score, some cfg.points⟩

/-- The award-failure response, 500. -/
def awardFailedResp (msg : String) : Response :=
  ⟨500, some msg, none, some false, none, none, none, none⟩

/-- The failing-score (normal) response, 200. -/
def failedResp (score : Int) (cfg : QuizConfig) : Response :=
  ⟨200, none,
   some ("You scored " ++ toString score ++ "/" ++ toString cfg.total_questions
     ++ ". You need " ++ toString cfg.passing_score ++ " to pass. Try again!"),
   some true, some false, some score, some cfg.passing_score, none⟩

/-- The award call built by the passing branch of submit. -/
def awardCallOf (email : String) (cfg : QuizConfig) : AwardCall :=
  ⟨email, cfg.points, cfg.action_title, cfg.completion_limit⟩

/-- The fields a submit request body may carry (`data.get(...)`). -/
structure SubmitRequest where
  session_id : Option String
  quiz_id : Option String
  score : Option Int
  answers : Answers
  deriving Repr, DecidableEq

/-- Embeds `submit_quiz` (server.py lines 149-222).  The state of
`completed_quizzes` is threaded explicitly; `award : Bool × String` is the
`(success, message)` pair the `award_points` adapter would return, and
`now` is `datetime.now().isoformat()`.  The result is the HTTP response,
the updated store, and the list of award-adapter invocations made. -/
def submit_quiz (store : Store) (award : Bool × String) (now : String)
    (req : SubmitRequest) : Response × Store × List AwardCall :=
  if !(strTruthy req.session_id && strTruthy req.quiz_id && req.score.isSome) then
    (missingFieldsResp, store, [])
  else
    match lookupConfig SERVER_QUIZ_CONFIG (req.quiz_id.getD "") with
    | none => (invalidQuizResp, store, [])
    | some quiz_config =>
      match truthyVal (get_user_email_from_session (req.session_id.getD "")) with
      | none => (invalidSessionResp, store, [])
      | some email =>
        if has_completed_quiz store email (req.quiz_id.getD "") then
          (alreadySubmitResp, store, [])
        else if quiz_config.total_questions < req.score.getD 0 then
          (invalidScoreResp, store, [])
        else if quiz_config.passing_score ≤ req.score.getD 0 then
          if award.1 then
            (passedResp (req.score.getD 0) quiz_config,
             storeInsert store (completionKey email (req.quiz_id.getD ""))
               ⟨now, req.score.getD 0, req.answers⟩,
             [awardCallOf email quiz_config])
          else
            (awardFailedResp award.2, store, [awardCallOf email quiz_config])
        else
          (failedResp (req.score.getD 0) quiz_config, store, [])

/-- Embeds `handler.handle_quiz_submit` (api/index.py lines 219-292).  Same logic
as the Flask variant but against the serverless `QUIZ_CONFIG` (and its own
copies of the helper functions); the `_status` key handled by `do_POST` is
reflected in the response's status code. -/
def handle_quiz_submit (store : Store) (award : Bool × String) (now : String)
    (req : SubmitRequest) : Response × Store × List AwardCall :=
  if !(strTruthy req.session_id && strTruthy req.quiz_id && req.score.isSome) then
    (missingFieldsResp, store, [])
  else
    match lookupConfig API_QUIZ_CONFIG (req.quiz_id.getD "") with
    | none => (invalidQuizResp, store, [])
    | some quiz_config =>
      match truthyVal (api_get_user_email_from_session (req.session_id.getD "")) with
      | none => (invalidSessionResp, store, [])
      | some email =>
        if api_has_completed_quiz store email (req.quiz_id.getD "") then
          (alreadySubmitResp, store, [])
        else if quiz_config.total_questions < req.score.getD 0 then
          (invalidScoreResp, store, [])
        else if quiz_config.passing_score ≤ req.score.getD 0 then
          if award.1 then
            (passedResp (req.score.getD 0) quiz_config,
             storeInsert store (completionKey email (req.quiz_id.getD ""))
               ⟨now, req.score.getD 0, req.answers⟩,
             [awardCallOf email quiz_config])
          else
            (awardFailedResp award.2, store, [awardCallOf email quiz_config])
        else
          (failedResp (req.score.getD 0) quiz_config, store, [])

example : submit_quiz [] (true, "Points awarded successfully") "t"
    ⟨some "a@b.com_1700000000_deadbeef", some "grooming_mastery", some 3, []⟩ =
    (passedResp 3 ⟨"Grooming Mastery Quiz", 5, 3, 50, "Completed Grooming Mastery Quiz", 1⟩,
     [("a@b.com_grooming_mastery", ⟨"t", 3, []⟩)],
     [⟨"a@b.com", 50, "Completed Grooming Mastery Quiz", 1⟩]) := by decide

/-- The fields a start request body may carry. -/
structure StartRequest where
  quiz_id : Option String
  email : Option String
  deriving Repr, DecidableEq

/-- Result of a start request: an error response (status, error field,
optional message field) or success with the session id and the echoed
quiz configuration. -/
inductive StartResult where
  | err (status : Nat) (error : String) (message : Option String)
  | ok (session_id : String) (quiz_config : QuizConfig) (message : String)
  deriving Repr, DecidableEq

/-- The session token `f"{email}_{timestamp}_{session_id}"` built by
`start_quiz`, where the final fragment is the truncated sha256 hex digest
of `f"{email}_{timestamp}_{quiz_id}"` (the hash is supplied as the
external function `hashF`). -/
def sessionTokenOf (email : String) (timestamp : Nat) (quiz_id : String)
    (hashF : String → String) : String :=
  email ++ "_" ++ toString timestamp ++ "_"
    ++ hashF (email ++ "_" ++ toString timestamp ++ "_" ++ quiz_id)

/-- Embeds `start_quiz` (server.py lines 117-146).  `timestamp` stands for
`int(time.time())` and `hashF` for the truncated sha256 hex digest.  The
store is threaded through unchanged by every branch, exactly as in the
source, which never writes to `completed_quizzes` here. -/
def start_quiz (store : Store) (req : StartRequest) (timestamp : Nat)
    (hashF : String → String) : StartResult × Store :=
  if !(strTruthy req.quiz_id) ||
      (lookupConfig SERVER_QUIZ_CONFIG (req.quiz_id.getD "")).isNone then
    (.err 400 "Invalid quiz ID" none, store)
  else if !(strTruthy req.email) then
    (.err 400 "Email required" none, store)
  else if has_completed_quiz store (req.email.getD "") (req.quiz_id.getD "") then
    (.err 400 "Quiz already completed"
       (some "You have already completed this quiz and received your points."),
     store)
  else
    (.ok (sessionTokenOf (req.email.getD "") timestamp (req.quiz_id.getD "") hashF)
       ((lookupConfig SERVER_QUIZ_CONFIG (req.quiz_id.getD "")).getD
          ⟨"", 0, 0, 0, "", 0⟩)
       "Quiz started successfully",
     store)

/-- Embeds `handler.handle_quiz_start` (api/index.py lines 189-217); same logic
against the serverless `QUIZ_CONFIG`. -/
def handle_quiz_start (store : Store) (req : StartRequest) (timestamp : Nat)
    (hashF : String → String) : StartResult × Store :=
  if !(strTruthy req.quiz_id) ||
      (lookupConfig API_QUIZ_CONFIG (req.quiz_id.getD "")).isNone then
    (.err 400 "Invalid quiz ID" none, store)
  else if !(strTruthy req.email) then
    (.err 400 "Email required" none, store)
  else if api_has_completed_quiz store (req.email.getD "") (req.quiz_id.getD "") then
    (.err 400 "Quiz already completed"
       (some "You have already completed this quiz and received your points."),
     store)
  else
    (.ok (sessionTokenOf (req.email.getD "") timestamp (req.quiz_id.getD "") hashF)
       ((lookupConfig API_QUIZ_CONFIG (req.quiz_id.getD "")).getD
          ⟨"", 0, 0, 0, "", 0⟩)
       "Quiz started successfully",
     store)

/-- Result body of a status query: the error body, a single completion
flag, or one flag per registered quiz. -/
inductive StatusResult where
  | err (error : String)
  | single (quiz_id : String) (completed : Bool)
  | all (flags : List (String × Bool))
  deriving Repr, DecidableEq

/-- Embeds `quiz_status` (server.py lines 225-246).  Pure read: the store is
returned unchanged by every branch, as in the source. -/
def quiz_status (store : Store) (email quiz_id : Option String) :
    StatusResult × Store :=
  if !(strTruthy email) then
    (.err "Email required", store)
  else if strTruthy quiz_id then
    (.single (quiz_id.getD "")
       (has_completed_quiz store (email.getD "") (quiz_id.getD "")), store)
  else
    (.all (SERVER_QUIZ_CONFIG.map
       (fun p => (p.1, has_completed_quiz store (email.getD "") p.1))), store)

/-- The status branch of `handler.do_GET` (api/index.py lines 126-146):
the JSON body built for `/api/quiz/status` (the serverless handler always
sends HTTP 200 for GET; only the body distinguishes the cases). -/
def api_status_body (store : Store) (email quiz_id : Option String) :
    StatusResult :=
  if !(strTruthy email) then
    .err "Email required"
  else if strTruthy quiz_id then
    .single (quiz_id.getD "")
      (api_has_completed_quiz store (email.getD "") (quiz_id.getD ""))
  else
    .all (API_QUIZ_CONFIG.map
      (fun p => (p.1, api_has_completed_quiz store (email.getD "") p.1)))

/-! Race model for two concurrent passing submissions.  `submit_quiz`
performs its completion check (server.py line 171) and, for a passing
score with a successful adapter call, its completion write (lines
187-200) as two separate store accesses with the blocking outbound HTTP
award call in between, and the source takes no lock around them.  The
definitions below are those two phases of the source, plus the
interleaving in which both checks run before either commit. -/

/-- The completion check of `submit_quiz` (server.py line 171). -/
def submitRaceCheck (store : Store) (email quiz_id : String) : Bool :=
  has_completed_quiz store email quiz_id

/-- The award-and-record step of `submit_quiz` for a passing score with a
successful adapter call (server.py lines 185-200): one award-adapter
invocation, then the completion write. -/
def submitRaceCommit (store : Store) (email quiz_id : String)
    (cfg : QuizConfig) (score : Int) (answers : Answers) (now : String) :
    Store × List AwardCall :=
  (storeInsert store (completionKey email quiz_id) ⟨now, score, answers⟩,
   [awardCallOf email cfg])

/-- Two concurrent passing submissions for the same (email, quiz)
executed under the interleaving check-A, check-B, commit-A, commit-B:
each thread runs the source's completion check against the shared store
before either thread has written its completion record.  Returns the
final store and the total number of award-adapter invocations. -/
def racyDoubleSubmit (store : Store) (email quiz_id : String)
    (cfg : QuizConfig) (score : Int) (answers : Answers) (now : String) :
    Store × Nat :=
  let aClear := !(submitRaceCheck store email quiz_id)
  let bClear := !(submitRaceCheck store email quiz_id)
  let afterA :=
    if aClear then submitRaceCommit store email quiz_id cfg score answers now
    else (store, [])
  let afterB :=
    if bClear then
      submitRaceCommit afterA.1 email quiz_id cfg score answers now
    else (afterA.1, [])
  (afterB.1, afterA.2.length + afterB.2.length)

/-- Number of completion records held for the pair (user, quiz): entries
of the store whose key is `completionKey u q`. -/
def recordsFor (store : Store) (u q : String) : Nat :=
  match store with
  | [] => 0
  | (k, _) :: rest =>
      (if k = completionKey u q then 1 else 0) + recordsFor rest u q

/-- Well-formedness of the store as a Python dict image: every key occurs
at most once (the tail never binds the head's key again). -/
def goodKeys : Store → Prop
  | [] => True
  | (k, _) :: rest => storeLookup rest k = none ∧ goodKeys rest

/-- Stores reachable from `s` by any sequence of the repository's
operations (either variant's submit, start, or status). -/
inductive ReachableFrom : Store → Store → Prop where
  | refl (s : Store) : ReachableFrom s s
  | step_submit (s t : Store) (award : Bool × String) (now : String)
      (req : SubmitRequest) (h : ReachableFrom s t) :
      ReachableFrom s (submit_quiz t award now req).2.1
  | step_api_submit (s t : Store) (award : Bool × String) (now : String)
      (req : SubmitRequest) (h : ReachableFrom s t) :
      ReachableFrom s (handle_quiz_submit t award now req).2.1
  | step_start (s t : Store) (req : StartRequest) (timestamp : Nat)
      (hashF : String → String) (h : ReachableFrom s t) :
      ReachableFrom s (start_quiz t req timestamp hashF).2
  | step_api_start (s t : Store) (req : StartRequest) (timestamp : Nat)
      (hashF : String → String) (h : ReachableFrom s t) :
      ReachableFrom s (handle_quiz_start t req timestamp hashF).2
  | step_status (s t : Store) (email quiz_id : Option String)
      (h : ReachableFrom s t) :
      ReachableFrom s (quiz_status t email quiz_id).2

/-- Stores reachable from the initial empty `completed_quizzes`. -/
def Reachable (s : Store) : Prop :=
  ReachableFrom [] s

/-- Outcome of the submit validation chain, in the order the spec §4.2
prescribes. -/
inductive CheckOutcome where
  | missingFields | unknownQuiz | invalidSession | alreadyCompleted
  | invalidScore | scoreFail | scorePass
  deriving Repr, DecidableEq

/-- Modelled from the spec (§4.2 "Behavior (evaluated strictly in this
order)"): the first failing check — MissingFields, UnknownQuiz,
InvalidSession, AlreadyCompleted, InvalidScore — and otherwise the
pass/fail outcome of the score comparison.  This is the spec-side
definition that the code-side `submit_quiz` / `handle_quiz_submit` are
compared against. -/
def specFirstCheck (cfgs : List (String × QuizConfig)) (store : Store)
    (req : SubmitRequest) : CheckOutcome :=
  if !(strTruthy req.session_id && strTruthy req.quiz_id && req.score.isSome) then
    .missingFields
  else
    match lookupConfig cfgs (req.quiz_id.getD "") with
    | none => .unknownQuiz
    | some cfg =>
      match truthyVal (get_user_email_from_session (req.session_id.getD "")) with
      | none => .invalidSession
      | some email =>
        if has_completed_quiz store email (req.quiz_id.getD "") then
          .alreadyCompleted
        else if cfg.total_questions < req.score.getD 0 then .invalidScore
        else if cfg.passing_score ≤ req.score.getD 0 then .scorePass
        else .scoreFail

/-- The HTTP-analogous classification the spec assigns to each outcome:
each validation failure with its status code (401 for InvalidSession, 400
otherwise), a failing score as a normal 200 success, and a passing score
as 200 on adapter success or 500 on adapter failure. -/
def outcomeMatches (award : Bool × String) (o : CheckOutcome) (r : Response) :
    Prop :=
  match o with
  | .missingFields => r.status = 400 ∧ r.error = some "Missing required fields"
  | .unknownQuiz => r.status = 400 ∧ r.error = some "Invalid quiz ID"
  | .invalidSession => r.status = 401 ∧ r.error = some "Invalid session"
  | .alreadyCompleted => r.status = 400 ∧ r.error = some "Quiz already completed"
  | .invalidScore => r.status = 400 ∧ r.error = some "Invalid score"
  | .scoreFail =>
      r.status = 200 ∧ r.success = some true ∧ r.passed = some false ∧
        r.error = none
  | .scorePass => r.status = if award.1 then 200 else 500

/-! Store lemmas -/

theorem storeLookup_insert (s : Store) (k k' : String) (v : CompletionRecord) :
    storeLookup (storeInsert s k v) k' =
      if k' = k then some v else storeLookup s k' := by
  induction s with
  | nil =>
      by_cases h : k' = k <;>
        simp_all [storeInsert, storeLookup, eq_comm]
  | cons p rest ih =>
      obtain ⟨k0, v0⟩ := p
      by_cases hk : k0 = k <;> by_cases h : k' = k <;>
        simp_all [storeInsert, storeLookup, eq_comm]

theorem storeLookup_insert_isSome (s : Store) (k k' : String)
    (v : CompletionRecord) (h : (storeLookup s k').isSome = true) :
    (storeLookup (storeInsert s k v) k').isSome = true := by
  rw [storeLookup_insert]
  split <;> simp_all

theorem goodKeys_insert (s : Store) (k : String) (v : CompletionRecord)
    (h : goodKeys s) : goodKeys (storeInsert s k v) := by
  induction s with
  | nil => simp [storeInsert, goodKeys, storeLookup]
  | cons p rest ih =>
      obtain ⟨k0, v0⟩ := p
      obtain ⟨h1, h2⟩ := h
      by_cases hk : k0 = k
      · subst hk
        simpa [storeInsert, goodKeys] using ⟨h1, h2⟩
      · simp only [storeInsert, if_neg hk, goodKeys]
        refine ⟨?_, ih h2⟩
        rw [storeLookup_insert, if_neg hk]
        exact h1

theorem recordsFor_eq_zero (s : Store) (u q : String)
    (h : storeLookup s (completionKey u q) = none) : recordsFor s u q = 0 := by
  induction s with
  | nil => rfl
  | cons p rest ih =>
      obtain ⟨k, v⟩ := p
      by_cases hk : k = completionKey u q
      · simp [storeLookup, hk] at h
      · simp only [storeLookup, if_neg hk] at h
        simp [recordsFor, hk, ih h]

theorem recordsFor_le_one (s : Store) (u q : String) (h : goodKeys s) :
    recordsFor s u q ≤ 1 := by
  induction s with
  | nil => simp [recordsFor]
  | cons p rest ih =>
      obtain ⟨k, v⟩ := p
      obtain ⟨h1, h2⟩ := h
      by_cases hk : k = completionKey u q
      · have : recordsFor rest u q = 0 :=
          recordsFor_eq_zero rest u q (hk ▸ h1)
        simp [recordsFor, hk, this]
      · simpa [recordsFor, hk] using ih h2

/-! Frame lemmas: which operations touch the store, and how -/

theorem submit_quiz_store_shape (store : Store) (award : Bool × String)
    (now : String) (req : SubmitRequest) :
    (submit_quiz store award now req).2.1 = store ∨
      ∃ k v, (submit_quiz store award now req).2.1 = storeInsert store k v := by
  unfold submit_quiz
  repeat' split
  all_goals first | (left; rfl) | (right; exact ⟨_, _, rfl⟩)

theorem handle_quiz_submit_store_shape (store : Store) (award : Bool × String)
    (now : String) (req : SubmitRequest) :
    (handle_quiz_submit store award now req).2.1 = store ∨
      ∃ k v, (handle_quiz_submit store award now req).2.1 = storeInsert store k v := by
  unfold handle_quiz_submit
  repeat' split
  all_goals first | (left; rfl) | (right; exact ⟨_, _, rfl⟩)

theorem start_quiz_store_eq (store : Store) (req : StartRequest)
    (timestamp : Nat) (hashF : String → String) :
    (start_quiz store req timestamp hashF).2 = store := by
  unfold start_quiz
  repeat' split
  all_goals rfl

theorem handle_quiz_start_store_eq (store : Store) (req : StartRequest)
    (timestamp : Nat) (hashF : String → String) :
    (handle_quiz_start store req timestamp hashF).2 = store := by
  unfold handle_quiz_start
  repeat' split
  all_goals rfl

theorem quiz_status_store_eq (store : Store) (email quiz_id : Option String) :
    (quiz_status store email quiz_id).2 = store := by
  unfold quiz_status
  repeat' split
  all_goals rfl

theorem goodKeys_of_reachableFrom (s t : Store) (h : ReachableFrom s t)
    (hs : goodKeys s) : goodKeys t := by
  induction h with
  | refl => exact hs
  | step_submit t award now req h ih =>
      rcases submit_quiz_store_shape t award now req with he | ⟨k, v, he⟩
      · rw [he]; exact ih
      · rw [he]; exact goodKeys_insert t k v ih
  | step_api_submit t award now req h ih =>
      rcases handle_quiz_submit_store_shape t award now req with he | ⟨k, v, he⟩
      · rw [he]; exact ih
      · rw [he]; exact goodKeys_insert t k v ih
  | step_start t req timestamp hashF h ih =>
      rw [start_quiz_store_eq]; exact ih
  | step_api_start t req timestamp hashF h ih =>
      rw [handle_quiz_start_store_eq]; exact ih
  | step_status t email quiz_id h ih =>
      rw [quiz_status_store_eq]; exact ih

/-! Token parsing lemmas -/

theorem splitOnChar_ne_nil (sep : Char) (l : List Char) :
    splitOnChar sep l ≠ [] := by
  induction l with
  | nil => simp [splitOnChar]
  | cons c cs ih =>
      simp only [splitOnChar]
      rcases hr : splitOnChar sep cs with _ | ⟨h, t⟩
      · exact absurd hr ih
      · by_cases hc : c = sep <;> simp [hc]

theorem splitOnChar_append_sep (sep : Char) (a b : List Char)
    (h : sep ∉ a) : splitOnChar sep (a ++ sep :: b) = a :: splitOnChar sep b := by
  induction a with
  | nil => simp [splitOnChar]
  | cons c cs ih =>
      simp only [List.mem_cons, not_or] at h
      obtain ⟨hc, hcs⟩ := h
      have hc2 : decide (c = sep) = false :=
        decide_eq_false (fun he => hc he.symm)
      simp only [List.cons_append, splitOnChar, hc2, List.append_eq, ih hcs]

theorem get_user_email_round_trip (u rest : String) (hu : ('_' : Char) ∉ u.data)
    (hne : u ≠ "") :
    truthyVal (get_user_email_from_session (u ++ "_" ++ rest)) = some u := by
  have hsplit : splitOnChar '_' (u.data ++ '_' :: rest.data)
      = u.data :: splitOnChar '_' rest.data :=
    splitOnChar_append_sep '_' u.data rest.data hu
  have hpos : 1 ≤ (splitOnChar '_' rest.data).length :=
    List.length_pos.mpr (splitOnChar_ne_nil '_' rest.data)
  have hmk : String.mk u.data = u := by
    cases u
    rfl
  simp [get_user_email_from_session, String.data_append, hsplit, hpos,
    truthyVal, hmk, hne]

/-! Registry facts -/

theorem server_registered_ne_empty (q : String) (cfg : QuizConfig)
    (h : lookupConfig SERVER_QUIZ_CONFIG q = some cfg) : q ≠ "" := by
  intro he
  subst he
  have : lookupConfig SERVER_QUIZ_CONFIG "" = none := by decide
  rw [this] at h
  exact Option.noConfusion h

theorem api_registered_ne_empty (q : String) (cfg : QuizConfig)
    (h : lookupConfig API_QUIZ_CONFIG q = some cfg) : q ≠ "" := by
  intro he
  subst he
  have : lookupConfig API_QUIZ_CONFIG "" = none := by decide
  rw [this] at h
  exact Option.noConfusion h

theorem server_passing_pos (q : String) (cfg : QuizConfig)
    (h : lookupConfig SERVER_QUIZ_CONFIG q = some cfg) : 0 < cfg.passing_score := by
  simp only [SERVER_QUIZ_CONFIG, lookupConfig] at h
  split at h
  · cases h; decide
  · split at h
    · cases h; decide
    · split at h
      · cases h; decide
      · exact Option.noConfusion h

theorem api_passing_pos (q : String) (cfg : QuizConfig)
    (h : lookupConfig API_QUIZ_CONFIG q = some cfg) : 0 < cfg.passing_score := by
  simp only [API_QUIZ_CONFIG, lookupConfig] at h
  split at h
  · cases h; decide
  · exact Option.noConfusion h

/-- The api registry is a sub-registry of the Flask one: any quiz it
registers carries the identical configuration in `server.py`. -/
theorem api_config_sub (q : String) (cfg : QuizConfig)
    (h : lookupConfig API_QUIZ_CONFIG q = some cfg) :
    lookupConfig SERVER_QUIZ_CONFIG q = some cfg := by
  simp only [API_QUIZ_CONFIG, lookupConfig] at h
  split at h
  · rename_i hq
    cases h
    subst hq
    decide
  · exact Option.noConfusion h

/-! Miscellaneous helpers -/

theorem fields_check_true (req : SubmitRequest) (sid q : String) (v : Int)
    (hs : req.session_id = some sid) (hsn : sid ≠ "")
    (hq : req.quiz_id = some q) (hqn : q ≠ "")
    (hv : req.score = some v) :
    (strTruthy req.session_id && strTruthy req.quiz_id
      && req.score.isSome) = true := by
  simp [hs, hq, hv, strTruthy, hsn, hqn]

theorem has_completed_insert_self (store : Store) (u q : String)
    (v : CompletionRecord) :
    has_completed_quiz (storeInsert store (completionKey u q) v) u q = true := by
  simp only [has_completed_quiz]
  rw [storeLookup_insert]
  simp

/-! Branch equations for the two submit functions -/

theorem submit_eq_missing (store : Store) (award : Bool × String)
    (now : String) (req : SubmitRequest)
    (h : (strTruthy req.session_id && strTruthy req.quiz_id
      && req.score.isSome) = false) :
    submit_quiz store award now req = (missingFieldsResp, store, []) := by
  simp [submit_quiz, h]

theorem submit_eq_unknown (store : Store) (award : Bool × String)
    (now : String) (req : SubmitRequest)
    (h1 : (strTruthy req.session_id && strTruthy req.quiz_id
      && req.score.isSome) = true)
    (h2 : lookupConfig SERVER_QUIZ_CONFIG (req.quiz_id.getD "") = none) :
    submit_quiz store award now req = (invalidQuizResp, store, []) := by
  simp [submit_quiz, h1, h2]

theorem submit_eq_bad_session (store : Store) (award : Bool × String)
    (now : String) (req : SubmitRequest) (cfg : QuizConfig)
    (h1 : (strTruthy req.session_id && strTruthy req.quiz_id
      && req.score.isSome) = true)
    (h2 : lookupConfig SERVER_QUIZ_CONFIG (req.quiz_id.getD "") = some cfg)
    (h3 : truthyVal (get_user_email_from_session (req.session_id.getD "")) = none) :
    submit_quiz store award now req = (invalidSessionResp, store, []) := by
  simp [submit_quiz, h1, h2, h3]

theorem submit_eq_already (store : Store) (award : Bool × String)
    (now : String) (req : SubmitRequest) (cfg : QuizConfig) (email : String)
    (h1 : (strTruthy req.session_id && strTruthy req.quiz_id
      && req.score.isSome) = true)
    (h2 : lookupConfig SERVER_QUIZ_CONFIG (req.quiz_id.getD "") = some cfg)
    (h3 : truthyVal (get_user_email_from_session (req.session_id.getD ""))
      = some email)
    (h4 : has_completed_quiz store email (req.quiz_id.getD "") = true) :
    submit_quiz store award now req = (alreadySubmitResp, store, []) := by
  simp [submit_quiz, h1, h2, h3, h4]

theorem submit_eq_bad_score (store : Store) (award : Bool × String)
    (now : String) (req : SubmitRequest) (cfg : QuizConfig) (email : String)
    (h1 : (strTruthy req.session_id && strTruthy req.quiz_id
      && req.score.isSome) = true)
    (h2 : lookupConfig SERVER_QUIZ_CONFIG (req.quiz_id.getD "") = some cfg)
    (h3 : truthyVal (get_user_email_from_session (req.session_id.getD ""))
      = some email)
    (h4 : has_completed_quiz store email (req.quiz_id.getD "") = false)
    (h5 : cfg.total_questions < req.score.getD 0) :
    submit_quiz store award now req = (invalidScoreResp, store, []) := by
  simp [submit_quiz, h1, h2, h3, h4, h5]

theorem submit_eq_pass_success (store : Store) (msg : String)
    (now : String) (req : SubmitRequest) (cfg : QuizConfig) (email : String)
    (h1 : (strTruthy req.session_id && strTruthy req.quiz_id
      && req.score.isSome) = true)
    (h2 : lookupConfig SERVER_QUIZ_CONFIG (req.quiz_id.getD "") = some cfg)
    (h3 : truthyVal (get_user_email_from_session (req.session_id.getD ""))
      = some email)
    (h4 : has_completed_quiz store email (req.quiz_id.getD "") = false)
    (h5 : req.score.getD 0 ≤ cfg.total_questions)
    (h6 : cfg.passing_score ≤ req.score.getD 0) :
    submit_quiz store (true, msg) now req =
      (passedResp (req.score.getD 0) cfg,
       storeInsert store (completionKey email (req.quiz_id.getD ""))
         ⟨now, req.score.getD 0, req.answers⟩,
       [awardCallOf email cfg]) := by
  simp [submit_quiz, h1, h2, h3, h4, not_lt.mpr h5, h6]

theorem submit_eq_pass_award_failed (store : Store) (msg : String)
    (now : String) (req : SubmitRequest) (cfg : QuizConfig) (email : String)
    (h1 : (strTruthy req.session_id && strTruthy req.quiz_id
      && req.score.isSome) = true)
    (h2 : lookupConfig SERVER_QUIZ_CONFIG (req.quiz_id.getD "") = some cfg)
    (h3 : truthyVal (get_user_email_from_session (req.session_id.getD ""))
      = some email)
    (h4 : has_completed_quiz store email (req.quiz_id.getD "") = false)
    (h5 : req.score.getD 0 ≤ cfg.total_questions)
    (h6 : cfg.passing_score ≤ req.score.getD 0) :
    submit_quiz store (false, msg) now req =
      (awardFailedResp msg, store, [awardCallOf email cfg]) := by
  simp [submit_quiz, h1, h2, h3, h4, not_lt.mpr h5, h6]

theorem submit_eq_fail_score (store : Store) (award : Bool × String)
    (now : String) (req : SubmitRequest) (cfg : QuizConfig) (email : String)
    (h1 : (strTruthy req.session_id && strTruthy req.quiz_id
      && req.score.isSome) = true)
    (h2 : lookupConfig SERVER_QUIZ_CONFIG (req.quiz_id.getD "") = some cfg)
    (h3 : truthyVal (get_user_email_from_session (req.session_id.getD ""))
      = some email)
    (h4 : has_completed_quiz store email (req.quiz_id.getD "") = false)
    (h5 : req.score.getD 0 ≤ cfg.total_questions)
    (h6 : req.score.getD 0 < cfg.passing_score) :
    submit_quiz store award now req =
      (failedResp (req.score.getD 0) cfg, store, []) := by
  simp [submit_quiz, h1, h2, h3, h4, not_lt.mpr h5, not_le.mpr h6]

theorem api_submit_eq_missing (store : Store) (award : Bool × String)
    (now : String) (req : SubmitRequest)
    (h : (strTruthy req.session_id && strTruthy req.quiz_id
      && req.score.isSome) = false) :
    handle_quiz_submit store award now req = (missingFieldsResp, store, []) := by
  simp [handle_quiz_submit, h]

theorem api_submit_eq_unknown (store : Store) (award : Bool × String)
    (now : String) (req : SubmitRequest)
    (h1 : (strTruthy req.session_id && strTruthy req.quiz_id
      && req.score.isSome) = true)
    (h2 : lookupConfig API_QUIZ_CONFIG (req.quiz_id.getD "") = none) :
    handle_quiz_submit store award now req = (invalidQuizResp, store, []) := by
  simp [handle_quiz_submit, h1, h2]

theorem api_submit_eq_bad_session (store : Store) (award : Bool × String)
    (now : String) (req : SubmitRequest) (cfg : QuizConfig)
    (h1 : (strTruthy req.session_id && strTruthy req.quiz_id
      && req.score.isSome) = true)
    (h2 : lookupConfig API_QUIZ_CONFIG (req.quiz_id.getD "") = some cfg)
    (h3 : api_get_user_email_from_session (req.session_id.getD "") = none ∨
      api_get_user_email_from_session (req.session_id.getD "") = some "") :
    handle_quiz_submit store award now req = (invalidSessionResp, store, []) := by
  have h3' : truthyVal (api_get_user_email_from_session (req.session_id.getD ""))
      = none := by
    rcases h3 with h | h <;> simp [h, truthyVal]
  simp [handle_quiz_submit, h1, h2, h3']

theorem api_submit_eq_already (store : Store) (award : Bool × String)
    (now : String) (req : SubmitRequest) (cfg : QuizConfig) (email : String)
    (h1 : (strTruthy req.session_id && strTruthy req.quiz_id
      && req.score.isSome) = true)
    (h2 : lookupConfig API_QUIZ_CONFIG (req.quiz_id.getD "") = some cfg)
    (h3 : truthyVal (api_get_user_email_from_session (req.session_id.getD ""))
      = some email)
    (h4 : api_has_completed_quiz store email (req.quiz_id.getD "") = true) :
    handle_quiz_submit store award now req = (alreadySubmitResp, store, []) := by
  simp [handle_quiz_submit, h1, h2, h3, h4]

theorem api_submit_eq_bad_score (store : Store) (award : Bool × String)
    (now : String) (req : SubmitRequest) (cfg : QuizConfig) (email : String)
    (h1 : (strTruthy req.session_id && strTruthy req.quiz_id
      && req.score.isSome) = true)
    (h2 : lookupConfig API_QUIZ_CONFIG (req.quiz_id.getD "") = some cfg)
    (h3 : truthyVal (api_get_user_email_from_session (req.session_id.getD ""))
      = some email)
    (h4 : api_has_completed_quiz store email (req.quiz_id.getD "") = false)
    (h5 : cfg.total_questions < req.score.getD 0) :
    handle_quiz_submit store award now req = (invalidScoreResp, store, []) := by
  simp [handle_quiz_submit, h1, h2, h3, h4, h5]

theorem api_submit_eq_pass_success (store : Store) (msg : String)
    (now : String) (req : SubmitRequest) (cfg : QuizConfig) (email : String)
    (h1 : (strTruthy req.session_id && strTruthy req.quiz_id
      && req.score.isSome) = true)
    (h2 : lookupConfig API_QUIZ_CONFIG (req.quiz_id.getD "") = some cfg)
    (h3 : truthyVal (api_get_user_email_from_session (req.session_id.getD ""))
      = some email)
    (h4 : api_has_completed_quiz store email (req.quiz_id.getD "") = false)
    (h5 : req.score.getD 0 ≤ cfg.total_questions)
    (h6 : cfg.passing_score ≤ req.score.getD 0) :
    handle_quiz_submit store (true, msg) now req =
      (passedResp (req.score.getD 0) cfg,
       storeInsert store (completionKey email (req.quiz_id.getD ""))
         ⟨now, req.score.getD 0, req.answers⟩,
       [awardCallOf email cfg]) := by
  simp [handle_quiz_submit, h1, h2, h3, h4, not_lt.mpr h5, h6]

theorem api_submit_eq_pass_award_failed (store : Store) (msg : String)
    (now : String) (req : SubmitRequest) (cfg : QuizConfig) (email : String)
    (h1 : (strTruthy req.session_id && strTruthy req.quiz_id
      && req.score.isSome) = true)
    (h2 : lookupConfig API_QUIZ_CONFIG (req.quiz_id.getD "") = some cfg)
    (h3 : truthyVal (api_get_user_email_from_session (req.session_id.getD ""))
      = some email)
    (h4 : api_has_completed_quiz store email (req.quiz_id.getD "") = false)
    (h5 : req.score.getD 0 ≤ cfg.total_questions)
    (h6 : cfg.passing_score ≤ req.score.getD 0) :
    handle_quiz_submit store (false, msg) now req =
      (awardFailedResp msg, store, [awardCallOf email cfg]) := by
  simp [handle_quiz_submit, h1, h2, h3, h4, not_lt.mpr h5, h6]

theorem api_submit_eq_fail_score (store : Store) (award : Bool × String)
    (now : String) (req : SubmitRequest) (cfg : QuizConfig) (email : String)
    (h1 : (strTruthy req.session_id && strTruthy req.quiz_id
      && req.score.isSome) = true)
    (h2 : lookupConfig API_QUIZ_CONFIG (req.quiz_id.getD "") = some cfg)
    (h3 : truthyVal (api_get_user_email_from_session (req.session_id.getD ""))
      = some email)
    (h4 : api_has_completed_quiz store email (req.quiz_id.getD "") = false)
    (h5 : req.score.getD 0 ≤ cfg.total_questions)
    (h6 : req.score.getD 0 < cfg.passing_score) :
    handle_quiz_submit store award now req =
      (failedResp (req.score.getD 0) cfg, store, []) := by
  simp [handle_quiz_submit, h1, h2, h3, h4, not_lt.mpr h5, not_le.mpr h6]

theorem api_get_user_email_eq :
    api_get_user_email_from_session = get_user_email_from_session := rfl

theorem api_has_completed_eq : api_has_completed_quiz = has_completed_quiz := rfl

theorem resp_ne_of_status (r1 r2 : Response) (n1 n2 : Nat)
    (e1 : r1.status = n1) (e2 : r2.status = n2) (h : n1 ≠ n2) : r1 ≠ r2 :=
  fun he => h (e1 ▸ e2 ▸ he ▸ rfl)

theorem completed_mono_of_reachableFrom (s t : Store) (u q : String)
    (h : ReachableFrom s t) (hc : has_completed_quiz s u q = true) :
    has_completed_quiz t u q = true := by
  induction h with
  | refl => exact hc
  | step_submit t award now req h ih =>
      rcases submit_quiz_store_shape t award now req with he | ⟨k, v, he⟩
      · rw [he]; exact ih
      · rw [he]
        exact storeLookup_insert_isSome t k _ v ih
  | step_api_submit t award now req h ih =>
      rcases handle_quiz_submit_store_shape t award now req with he | ⟨k, v, he⟩
      · rw [he]; exact ih
      · rw [he]
        exact storeLookup_insert_isSome t k _ v ih
  | step_start t req timestamp hashF h ih =>
      rw [start_quiz_store_eq]; exact ih
  | step_api_start t req timestamp hashF h ih =>
      rw [handle_quiz_start_store_eq]; exact ih
  | step_status t email quiz_id h ih =>
      rw [quiz_status_store_eq]; exact ih

/-! Claims -/

/-- C5: for every user identity without the `'_'` separator, every
registered quiz id and every issue timestamp, the identity extracted at
submission time (first `'_'`-delimited segment) from the session token
produced by `start_quiz` equals the identity passed to start — by either
variant's extraction function. -/
theorem c5_token_identity_round_trip (store : Store) (u q : String)
    (timestamp : Nat) (hashF : String → String) (cfg : QuizConfig)
    (hu : ('_' : Char) ∉ u.data) (hne : u ≠ "")
    (hq : lookupConfig SERVER_QUIZ_CONFIG q = some cfg)
    (hnc : has_completed_quiz store u q = false) :
    (start_quiz store ⟨some q, some u⟩ timestamp hashF).1 =
      StartResult.ok (sessionTokenOf u timestamp q hashF) cfg
        "Quiz started successfully" ∧
    truthyVal (get_user_email_from_session
      (sessionTokenOf u timestamp q hashF)) = some u ∧
    truthyVal (api_get_user_email_from_session
      (sessionTokenOf u timestamp q hashF)) = some u := by
  have hqn : q ≠ "" := server_registered_ne_empty q cfg hq
  have htok : sessionTokenOf u timestamp q hashF
      = u ++ "_" ++ (toString timestamp ++ "_"
          ++ hashF (u ++ "_" ++ toString timestamp ++ "_" ++ q)) := by
    simp only [sessionTokenOf, String.append_assoc]
  refine ⟨?_, ?_, ?_⟩
  · simp [start_quiz, hq, strTruthy, hqn, hne, hnc]
  · rw [htok]
    exact get_user_email_round_trip u _ hu hne
  · rw [api_get_user_email_eq, htok]
    exact get_user_email_round_trip u _ hu hne

/-- Witness for C5 at a concrete identity, quiz, timestamp and hash. -/
theorem c5_token_identity_round_trip_witness :
    ('_' : Char) ∉ "a@b.com".data ∧
    truthyVal (get_user_email_from_session
      (sessionTokenOf "a@b.com" 1700000000 "grooming_mastery"
        (fun _ => "deadbeefdeadbeef"))) = some "a@b.com" := by
  have h := c5_token_identity_round_trip [] "a@b.com" "grooming_mastery"
    1700000000 (fun _ => "deadbeefdeadbeef")
    ⟨"Grooming Mastery Quiz", 5, 3, 50, "Completed Grooming Mastery Quiz", 1⟩
    (by decide) (by decide) (by decide) (by rfl)
  exact ⟨by decide, h.2.1⟩

/-- C10: on the one quiz both variants register, `grooming_mastery`, the
Flask `submit_quiz` and the serverless `handle_quiz_submit` agree exactly:
same response (status and all fields), same store update, same
award-adapter calls, for every store, request and adapter outcome. -/
theorem c10_submit_variants_equivalent (store : Store) (award : Bool × String)
    (now : String) (req : SubmitRequest)
    (h : req.quiz_id = some "grooming_mastery") :
    submit_quiz store award now req = handle_quiz_submit store award now req := by
  unfold submit_quiz handle_quiz_submit
  have hc : lookupConfig API_QUIZ_CONFIG (req.quiz_id.getD "")
      = lookupConfig SERVER_QUIZ_CONFIG (req.quiz_id.getD "") := by
    rw [h]
    decide
  rw [hc]
  rfl

/-- Witness for C10 at a concrete passing submission. -/
theorem c10_submit_variants_equivalent_witness :
    submit_quiz [] (true, "Points awarded successfully") "t"
      ⟨some "a@b.com_1_x", some "grooming_mastery", some 3, []⟩ =
    handle_quiz_submit [] (true, "Points awarded successfully") "t"
      ⟨some "a@b.com_1_x", some "grooming_mastery", some 3, []⟩ :=
  c10_submit_variants_equivalent [] (true, "Points awarded successfully") "t"
    ⟨some "a@b.com_1_x", some "grooming_mastery", some 3, []⟩ rfl

/-- C7: a valid submission whose score is below the passing threshold is a
normal success (200, `success`, `passed = false`) carrying the score and
the passing threshold, makes zero award-adapter calls, writes no
completion record, and leaves the store unchanged — in both variants. -/
theorem c7_failing_score_no_side_effects (store : Store)
    (award : Bool × String) (now sid : String) (req : SubmitRequest)
    (q u : String) (v : Int) (cfg : QuizConfig)
    (hs : req.session_id = some sid) (hsn : sid ≠ "")
    (hq : req.quiz_id = some q) (hv : req.score = some v)
    (hu : truthyVal (get_user_email_from_session sid) = some u)
    (hcfg : lookupConfig SERVER_QUIZ_CONFIG q = some cfg)
    (hnc : has_completed_quiz store u q = false)
    (hle : v ≤ cfg.total_questions) (hlt : v < cfg.passing_score) :
    submit_quiz store award now req = (failedResp v cfg, store, []) ∧
    (failedResp v cfg).status = 200 ∧
    (failedResp v cfg).success = some true ∧
    (failedResp v cfg).passed = some false ∧
    (failedResp v cfg).error = none ∧
    (failedResp v cfg).score = some v ∧
    (failedResp v cfg).passing_score = some cfg.passing_score ∧
    (lookupConfig API_QUIZ_CONFIG q = some cfg →
      handle_quiz_submit store award now req = (failedResp v cfg, store, [])) := by
  have hqn : q ≠ "" := server_registered_ne_empty q cfg hcfg
  have hqd : req.quiz_id.getD "" = q := by rw [hq]; rfl
  have hsd : req.session_id.getD "" = sid := by rw [hs]; rfl
  have hvd : req.score.getD 0 = v := by rw [hv]; rfl
  have h1 := fields_check_true req sid q v hs hsn hq hqn hv
  have hmain := submit_eq_fail_score store award now req cfg u h1
    (by rw [hqd]; exact hcfg) (by rw [hsd]; exact hu)
    (by rw [hqd]; exact hnc) (by rw [hvd]; exact hle) (by rw [hvd]; exact hlt)
  rw [hvd] at hmain
  refine ⟨hmain, rfl, rfl, rfl, rfl, rfl, rfl, ?_⟩
  intro hapi
  have hmain2 := api_submit_eq_fail_score store award now req cfg u h1
    (by rw [hqd]; exact hapi)
    (by rw [api_get_user_email_eq, hsd]; exact hu)
    (by rw [api_has_completed_eq, hqd]; exact hnc)
    (by rw [hvd]; exact hle) (by rw [hvd]; exact hlt)
  rw [hvd] at hmain2
  exact hmain2

/-- Witness for C7 at a concrete failing submission (score 2 of 5 on
`grooming_mastery`). -/
theorem c7_failing_score_no_side_effects_witness :
    submit_quiz [] (true, "Points awarded successfully") "t"
      ⟨some "a@b.com_1_x", some "grooming_mastery", some 2, []⟩ =
      (failedResp 2
        ⟨"Grooming Mastery Quiz", 5, 3, 50, "Completed Grooming Mastery Quiz", 1⟩,
       [], []) := by
  have h := c7_failing_score_no_side_effects []
    (true, "Points awarded successfully") "t" "a@b.com_1_x"
    ⟨some "a@b.com_1_x", some "grooming_mastery", some 2, []⟩
    "grooming_mastery" "a@b.com" 2
    ⟨"Grooming Mastery Quiz", 5, 3, 50, "Completed Grooming Mastery Quiz", 1⟩
    rfl (by decide) rfl rfl (by decide) (by decide) (by rfl)
    (by decide) (by decide)
  exact h.1

/-- C3: if the award adapter reports failure on a passing submission,
submit returns the 500 `AwardFailed` response, writes no completion
record (the store is returned unchanged), and a retry with the same
inputs is evaluated fresh: it is never the `AlreadyCompleted` rejection,
and with a succeeding adapter it passes.  Both variants behave so. -/
theorem c3_award_failure_leaves_store (store : Store) (msg now sid : String)
    (req : SubmitRequest) (q u : String) (v : Int) (cfg : QuizConfig)
    (hs : req.session_id = some sid) (hsn : sid ≠ "")
    (hq : req.quiz_id = some q) (hv : req.score = some v)
    (hu : truthyVal (get_user_email_from_session sid) = some u)
    (hcfg : lookupConfig SERVER_QUIZ_CONFIG q = some cfg)
    (hnc : has_completed_quiz store u q = false)
    (hle : v ≤ cfg.total_questions) (hge : cfg.passing_score ≤ v) :
    submit_quiz store (false, msg) now req =
      (awardFailedResp msg, store, [awardCallOf u cfg]) ∧
    (awardFailedResp msg).status = 500 ∧
    (∀ (award2 : Bool × String) (now2 : String),
      submit_quiz (submit_quiz store (false, msg) now req).2.1 award2 now2 req =
        submit_quiz store award2 now2 req ∧
      (submit_quiz store award2 now2 req).1 ≠ alreadySubmitResp) ∧
    (∀ msg2 now2, submit_quiz store (true, msg2) now2 req =
      (passedResp v cfg,
       storeInsert store (completionKey u q) ⟨now2, v, req.answers⟩,
       [awardCallOf u cfg])) ∧
    (lookupConfig API_QUIZ_CONFIG q = some cfg →
      handle_quiz_submit store (false, msg) now req =
        (awardFailedResp msg, store, [awardCallOf u cfg])) := by
  have hqn : q ≠ "" := server_registered_ne_empty q cfg hcfg
  have hqd : req.quiz_id.getD "" = q := by rw [hq]; rfl
  have hsd : req.session_id.getD "" = sid := by rw [hs]; rfl
  have hvd : req.score.getD 0 = v := by rw [hv]; rfl
  have h1 := fields_check_true req sid q v hs hsn hq hqn hv
  have h2 : lookupConfig SERVER_QUIZ_CONFIG (req.quiz_id.getD "") = some cfg := by
    rw [hqd]; exact hcfg
  have h3 : truthyVal (get_user_email_from_session (req.session_id.getD ""))
      = some u := by rw [hsd]; exact hu
  have h4 : has_completed_quiz store u (req.quiz_id.getD "") = false := by
    rw [hqd]; exact hnc
  have h5 : req.score.getD 0 ≤ cfg.total_questions := by rw [hvd]; exact hle
  have h6 : cfg.passing_score ≤ req.score.getD 0 := by rw [hvd]; exact hge
  have hmain := submit_eq_pass_award_failed store msg now req cfg u h1 h2 h3 h4 h5 h6
  refine ⟨hmain, rfl, ?_, ?_, ?_⟩
  · intro award2 now2
    have hst : (submit_quiz store (false, msg) now req).2.1 = store := by
      rw [hmain]
    refine ⟨by rw [hst], ?_⟩
    obtain ⟨b, m⟩ := award2
    cases b
    · rw [submit_eq_pass_award_failed store m now2 req cfg u h1 h2 h3 h4 h5 h6]
      exact resp_ne_of_status _ _ 500 400 rfl rfl (by decide)
    · rw [submit_eq_pass_success store m now2 req cfg u h1 h2 h3 h4 h5 h6]
      exact resp_ne_of_status _ _ 200 400 rfl rfl (by decide)
  · intro msg2 now2
    have := submit_eq_pass_success store msg2 now2 req cfg u h1 h2 h3 h4 h5 h6
    rw [hvd, hqd] at this
    exact this
  · intro hapi
    exact api_submit_eq_pass_award_failed store msg now req cfg u h1
      (by rw [hqd]; exact hapi)
      (by rw [api_get_user_email_eq, hsd]; exact hu)
      (by rw [api_has_completed_eq, hqd]; exact hnc) h5 h6

/-- Witness for C3: adapter failure on a passing score 3 of 5 on
`grooming_mastery` yields the 500 response and an unchanged empty store. -/
theorem c3_award_failure_leaves_store_witness :
    submit_quiz [] (false, "Failed to award points: 502") "t"
      ⟨some "a@b.com_1_x", some "grooming_mastery", some 3, []⟩ =
      (awardFailedResp "Failed to award points: 502", [],
       [⟨"a@b.com", 50, "Completed Grooming Mastery Quiz", 1⟩]) := by
  have h := c3_award_failure_leaves_store [] "Failed to award points: 502" "t"
    "a@b.com_1_x" ⟨some "a@b.com_1_x", some "grooming_mastery", some 3, []⟩
    "grooming_mastery" "a@b.com" 3
    ⟨"Grooming Mastery Quiz", 5, 3, 50, "Completed Grooming Mastery Quiz", 1⟩
    rfl (by decide) rfl rfl (by decide) (by decide) (by rfl)
    (by decide) (by decide)
  exact h.1

/-- C6: a submission that reaches the score-validation step is rejected
with `InvalidScore` exactly when `score > total_questions`; a score equal
to `total_questions` is accepted, and a negative score is not rejected by
this check but proceeds to the pass/fail comparison (where it fails
normally).  Both variants behave so. -/
theorem c6_score_validation (store : Store) (award : Bool × String)
    (now sid : String) (req : SubmitRequest) (q u : String) (v : Int)
    (cfg : QuizConfig)
    (hs : req.session_id = some sid) (hsn : sid ≠ "")
    (hq : req.quiz_id = some q) (hv : req.score = some v)
    (hu : truthyVal (get_user_email_from_session sid) = some u)
    (hcfg : lookupConfig SERVER_QUIZ_CONFIG q = some cfg)
    (hnc : has_completed_quiz store u q = false) :
    ((submit_quiz store award now req).1 = invalidScoreResp ↔
      cfg.total_questions < v) ∧
    (v ≤ cfg.total_questions → v < cfg.passing_score →
      submit_quiz store award now req = (failedResp v cfg, store, [])) ∧
    (v < 0 → submit_quiz store award now req = (failedResp v cfg, store, [])) ∧
    (lookupConfig API_QUIZ_CONFIG q = some cfg →
      ((handle_quiz_submit store award now req).1 = invalidScoreResp ↔
        cfg.total_questions < v)) := by
  have hqn : q ≠ "" := server_registered_ne_empty q cfg hcfg
  have hqd : req.quiz_id.getD "" = q := by rw [hq]; rfl
  have hsd : req.session_id.getD "" = sid := by rw [hs]; rfl
  have hvd : req.score.getD 0 = v := by rw [hv]; rfl
  have h1 := fields_check_true req sid q v hs hsn hq hqn hv
  have h2 : lookupConfig SERVER_QUIZ_CONFIG (req.quiz_id.getD "") = some cfg := by
    rw [hqd]; exact hcfg
  have h3 : truthyVal (get_user_email_from_session (req.session_id.getD ""))
      = some u := by rw [hsd]; exact hu
  have h4 : has_completed_quiz store u (req.quiz_id.getD "") = false := by
    rw [hqd]; exact hnc
  have hfail : ∀ hle : v ≤ cfg.total_questions, ∀ hlt : v < cfg.passing_score,
      submit_quiz store award now req = (failedResp v cfg, store, []) := by
    intro hle hlt
    have := submit_eq_fail_score store award now req cfg u h1 h2 h3 h4
      (by rw [hvd]; exact hle) (by rw [hvd]; exact hlt)
    rw [hvd] at this
    exact this
  have hserver : (submit_quiz store award now req).1 = invalidScoreResp ↔
      cfg.total_questions < v := by
    constructor
    · intro hresp
      by_contra hgt
      push_neg at hgt
      rcases lt_or_le v cfg.passing_score with hlt | hge
      · rw [hfail hgt hlt] at hresp
        exact resp_ne_of_status (failedResp v cfg) invalidScoreResp
          200 400 rfl rfl (by decide) hresp
      · obtain ⟨b, m⟩ := award
        cases b
        · rw [submit_eq_pass_award_failed store m now req cfg u h1 h2 h3 h4
            (by rw [hvd]; exact hgt) (by rw [hvd]; exact hge)] at hresp
          exact resp_ne_of_status (awardFailedResp m) invalidScoreResp
            500 400 rfl rfl (by decide) hresp
        · rw [submit_eq_pass_success store m now req cfg u h1 h2 h3 h4
            (by rw [hvd]; exact hgt) (by rw [hvd]; exact hge)] at hresp
          exact resp_ne_of_status (passedResp (req.score.getD 0) cfg)
            invalidScoreResp 200 400 rfl rfl (by decide) hresp
    · intro hgt
      rw [submit_eq_bad_score store award now req cfg u h1 h2 h3 h4
        (by rw [hvd]; exact hgt)]
  refine ⟨hserver, hfail, ?_, ?_⟩
  · intro hneg
    have hpos := server_passing_pos q cfg hcfg
    have htot : v ≤ cfg.total_questions := by
      have h0 : (0 : Int) ≤ cfg.total_questions := by
        simp only [SERVER_QUIZ_CONFIG, lookupConfig] at hcfg
        split at hcfg
        · cases hcfg; decide
        · split at hcfg
          · cases hcfg; decide
          · split at hcfg
            · cases hcfg; decide
            · exact Option.noConfusion hcfg
      omega
    exact hfail htot (by omega)
  · intro hapi
    have h2a : lookupConfig API_QUIZ_CONFIG (req.quiz_id.getD "") = some cfg := by
      rw [hqd]; exact hapi
    have h3a : truthyVal (api_get_user_email_from_session (req.session_id.getD ""))
        = some u := by rw [api_get_user_email_eq, hsd]; exact hu
    have h4a : api_has_completed_quiz store u (req.quiz_id.getD "") = false := by
      rw [api_has_completed_eq, hqd]; exact hnc
    constructor
    · intro hresp
      by_contra hgt
      push_neg at hgt
      rcases lt_or_le v cfg.passing_score with hlt | hge
      · rw [api_submit_eq_fail_score store award now req cfg u h1 h2a h3a h4a
          (by rw [hvd]; exact hgt) (by rw [hvd]; exact hlt)] at hresp
        exact resp_ne_of_status (failedResp (req.score.getD 0) cfg)
          invalidScoreResp 200 400 rfl rfl (by decide) hresp
      · obtain ⟨b, m⟩ := award
        cases b
        · rw [api_submit_eq_pass_award_failed store m now req cfg u h1 h2a h3a h4a
            (by rw [hvd]; exact hgt) (by rw [hvd]; exact hge)] at hresp
          exact resp_ne_of_status (awardFailedResp m) invalidScoreResp
            500 400 rfl rfl (by decide) hresp
        · rw [api_submit_eq_pass_success store m now req cfg u h1 h2a h3a h4a
            (by rw [hvd]; exact hgt) (by rw [hvd]; exact hge)] at hresp
          exact resp_ne_of_status (passedResp (req.score.getD 0) cfg)
            invalidScoreResp 200 400 rfl rfl (by decide) hresp
    · intro hgt
      rw [api_submit_eq_bad_score store award now req cfg u h1 h2a h3a h4a
        (by rw [hvd]; exact hgt)]

/-- Witness for C6 at a concrete negative score (-1 on `grooming_mastery`):
not rejected as `InvalidScore`, evaluated as a normal failing outcome. -/
theorem c6_score_validation_witness :
    ¬((submit_quiz [] (true, "m") "t"
        ⟨some "a@b.com_1_x", some "grooming_mastery", some (-1), []⟩).1 =
      invalidScoreResp) ∧
    submit_quiz [] (true, "m") "t"
      ⟨some "a@b.com_1_x", some "grooming_mastery", some (-1), []⟩ =
      (failedResp (-1)
        ⟨"Grooming Mastery Quiz", 5, 3, 50, "Completed Grooming Mastery Quiz", 1⟩,
       [], []) := by
  have h := c6_score_validation [] (true, "m") "t" "a@b.com_1_x"
    ⟨some "a@b.com_1_x", some "grooming_mastery", some (-1), []⟩
    "grooming_mastery" "a@b.com" (-1)
    ⟨"Grooming Mastery Quiz", 5, 3, 50, "Completed Grooming Mastery Quiz", 1⟩
    rfl (by decide) rfl rfl (by decide) (by decide) (by rfl)
  exact ⟨fun hr => absurd (h.1.mp hr) (by decide), h.2.2.1 (by decide)⟩

/-- C8: start never modifies the completion store in either variant; for
a user with an existing completion record for a registered quiz it always
fails with the already-completed rejection; and the checks run in the
order UnknownQuiz, MissingIdentity, AlreadyCompleted, each before a token
is returned. -/
theorem c8_start_read_only_and_checks :
    (∀ (store : Store) (req : StartRequest) (timestamp : Nat)
        (hashF : String → String),
      (start_quiz store req timestamp hashF).2 = store ∧
      (handle_quiz_start store req timestamp hashF).2 = store) ∧
    (∀ (store : Store) (q u : String) (timestamp : Nat)
        (hashF : String → String) (cfg : QuizConfig),
      lookupConfig SERVER_QUIZ_CONFIG q = some cfg → u ≠ "" →
      has_completed_quiz store u q = true →
      (start_quiz store ⟨some q, some u⟩ timestamp hashF).1 =
        StartResult.err 400 "Quiz already completed"
          (some "You have already completed this quiz and received your points.")) ∧
    (∀ (store : Store) (req : StartRequest) (timestamp : Nat)
        (hashF : String → String),
      strTruthy req.quiz_id = false ∨
        lookupConfig SERVER_QUIZ_CONFIG (req.quiz_id.getD "") = none →
      (start_quiz store req timestamp hashF).1 =
        StartResult.err 400 "Invalid quiz ID" none) ∧
    (∀ (store : Store) (req : StartRequest) (timestamp : Nat)
        (hashF : String → String) (cfg : QuizConfig),
      lookupConfig SERVER_QUIZ_CONFIG (req.quiz_id.getD "") = some cfg →
      strTruthy req.quiz_id = true → strTruthy req.email = false →
      (start_quiz store req timestamp hashF).1 =
        StartResult.err 400 "Email required" none) ∧
    (∀ (store : Store) (q u : String) (timestamp : Nat)
        (hashF : String → String) (cfg : QuizConfig),
      lookupConfig API_QUIZ_CONFIG q = some cfg → u ≠ "" →
      api_has_completed_quiz store u q = true →
      (handle_quiz_start store ⟨some q, some u⟩ timestamp hashF).1 =
        StartResult.err 400 "Quiz already completed"
          (some "You have already completed this quiz and received your points.")) := by
  refine ⟨?_, ?_, ?_, ?_, ?_⟩
  · intro store req timestamp hashF
    exact ⟨start_quiz_store_eq store req timestamp hashF,
      handle_quiz_start_store_eq store req timestamp hashF⟩
  · intro store q u timestamp hashF cfg hq hne hc
    have hqn : q ≠ "" := server_registered_ne_empty q cfg hq
    simp [start_quiz, hq, strTruthy, hqn, hne, hc]
  · intro store req timestamp hashF h
    rcases h with h | h
    · simp [start_quiz, h]
    · simp [start_quiz, h]
  · intro store req timestamp hashF cfg hq hqt hem
    simp [start_quiz, hq, hqt, hem]
  · intro store q u timestamp hashF cfg hq hne hc
    have hqn : q ≠ "" := api_registered_ne_empty q cfg hq
    simp [handle_quiz_start, hq, strTruthy, hqn, hne, hc]

/-- Witness for C8: starting `grooming_mastery` again for a user who has
a completion record is rejected with the already-completed error. -/
theorem c8_start_read_only_and_checks_witness :
    (start_quiz [("a@b.com_grooming_mastery", ⟨"t", 3, []⟩)]
      ⟨some "grooming_mastery", some "a@b.com"⟩ 1 (fun _ => "x")).1 =
      StartResult.err 400 "Quiz already completed"
        (some "You have already completed this quiz and received your points.") :=
  c8_start_read_only_and_checks.2.1 [("a@b.com_grooming_mastery", ⟨"t", 3, []⟩)]
    "grooming_mastery" "a@b.com" 1 (fun _ => "x")
    ⟨"Grooming Mastery Quiz", 5, 3, 50, "Completed Grooming Mastery Quiz", 1⟩
    (by decide) (by decide) (by decide)

/-- C9: status fails with the email-required error when the identity is
absent or empty; with a quiz id it returns the single completion flag for
that pair; without one it returns one flag per registered quiz; it never
modifies the store; and a user with no completions gets `false`
everywhere.  Both variants behave so. -/
theorem c9_status_query :
    (∀ (store : Store) (email quiz_id : Option String),
      (quiz_status store email quiz_id).2 = store) ∧
    (∀ (store : Store) (email quiz_id : Option String),
      strTruthy email = false →
      (quiz_status store email quiz_id).1 = StatusResult.err "Email required" ∧
      api_status_body store email quiz_id = StatusResult.err "Email required") ∧
    (∀ (store : Store) (u q : String), u ≠ "" → q ≠ "" →
      (quiz_status store (some u) (some q)).1 =
        StatusResult.single q (has_completed_quiz store u q) ∧
      api_status_body store (some u) (some q) =
        StatusResult.single q (api_has_completed_quiz store u q)) ∧
    (∀ (store : Store) (u : String), u ≠ "" →
      (quiz_status store (some u) none).1 =
        StatusResult.all (SERVER_QUIZ_CONFIG.map
          (fun p => (p.1, has_completed_quiz store u p.1))) ∧
      api_status_body store (some u) none =
        StatusResult.all (API_QUIZ_CONFIG.map
          (fun p => (p.1, api_has_completed_quiz store u p.1)))) ∧
    (∀ (store : Store) (u : String), u ≠ "" →
      (∀ q, has_completed_quiz store u q = false) →
      (quiz_status store (some u) none).1 =
        StatusResult.all (SERVER_QUIZ_CONFIG.map (fun p => (p.1, false))) ∧
      api_status_body store (some u) none =
        StatusResult.all (API_QUIZ_CONFIG.map (fun p => (p.1, false))) ∧
      (∀ q, q ≠ "" → (quiz_status store (some u) (some q)).1 =
        StatusResult.single q false)) := by
  refine ⟨?_, ?_, ?_, ?_, ?_⟩
  · intro store email quiz_id
    exact quiz_status_store_eq store email quiz_id
  · intro store email quiz_id h
    exact ⟨by simp [quiz_status, h], by simp [api_status_body, h]⟩
  · intro store u q hu hq
    constructor
    · simp [quiz_status, strTruthy, hu, hq]
    · simp [api_status_body, strTruthy, hu, hq]
  · intro store u hu
    constructor
    · simp [quiz_status, strTruthy, hu]
    · simp [api_status_body, strTruthy, hu]
  · intro store u hu hall
    have hfun : (fun p : String × QuizConfig =>
        (p.1, has_completed_quiz store u p.1)) = (fun p => (p.1, false)) :=
      funext (fun p => by rw [hall p.1])
    refine ⟨?_, ?_, ?_⟩
    · rw [(by simp [quiz_status, strTruthy, hu] :
        (quiz_status store (some u) none).1 =
          StatusResult.all (SERVER_QUIZ_CONFIG.map
            (fun p => (p.1, has_completed_quiz store u p.1)))), hfun]
    · rw [(by simp [api_status_body, strTruthy, hu] :
        api_status_body store (some u) none =
          StatusResult.all (API_QUIZ_CONFIG.map
            (fun p => (p.1, api_has_completed_quiz store u p.1)))),
        api_has_completed_eq, hfun]
    · intro q hq
      rw [(by simp [quiz_status, strTruthy, hu, hq] :
        (quiz_status store (some u) (some q)).1 =
          StatusResult.single q (has_completed_quiz store u q)), hall q]

/-- Witness for C9: a user with no completions gets `false` for every
registered quiz. -/
theorem c9_status_query_witness :
    (quiz_status [] (some "a@b.com") none).1 =
      StatusResult.all [("grooming_mastery", false), ("product_knowledge", false),
        ("skin_type", false)] := by
  have h := (c9_status_query.2.2.2.2 [] "a@b.com" (by decide)
    (fun _ => rfl)).1
  rw [h]
  rfl

/-- C4: for every input, submit's response is determined by the first
failing check in the spec's order — MissingFields, UnknownQuiz,
InvalidSession, AlreadyCompleted, InvalidScore, then pass/fail — with
validation failures mapped to 400 (401 for InvalidSession), a failing
score a normal 200 outcome, and a passing score 200 or 500 according to
the adapter.  Both variants satisfy the correspondence. -/
theorem c4_check_order (store : Store) (award : Bool × String) (now : String)
    (req : SubmitRequest) :
    outcomeMatches award (specFirstCheck SERVER_QUIZ_CONFIG store req)
      (submit_quiz store award now req).1 ∧
    outcomeMatches award (specFirstCheck API_QUIZ_CONFIG store req)
      (handle_quiz_submit store award now req).1 := by
  constructor
  · by_cases h1 : (strTruthy req.session_id && strTruthy req.quiz_id
      && req.score.isSome) = true
    case neg =>
      have h1f := Bool.eq_false_iff.mpr h1
      rw [submit_eq_missing store award now req h1f]
      simp [specFirstCheck, h1f, outcomeMatches, missingFieldsResp]
    case pos =>
      rcases h2 : lookupConfig SERVER_QUIZ_CONFIG (req.quiz_id.getD "") with _ | cfg
      · rw [submit_eq_unknown store award now req h1 h2]
        simp [specFirstCheck, h1, h2, outcomeMatches, invalidQuizResp]
      · rcases h3 : truthyVal (get_user_email_from_session
          (req.session_id.getD "")) with _ | email
        · rw [submit_eq_bad_session store award now req cfg h1 h2 h3]
          simp [specFirstCheck, h1, h2, h3, outcomeMatches, invalidSessionResp]
        · by_cases h4 : has_completed_quiz store email (req.quiz_id.getD "") = true
          · rw [submit_eq_already store award now req cfg email h1 h2 h3 h4]
            simp [specFirstCheck, h1, h2, h3, h4, outcomeMatches,
              alreadySubmitResp]
          · have h4f := Bool.eq_false_iff.mpr h4
            by_cases h5 : cfg.total_questions < req.score.getD 0
            · rw [submit_eq_bad_score store award now req cfg email h1 h2 h3 h4f h5]
              simp [specFirstCheck, h1, h2, h3, h4f, h5, outcomeMatches,
                invalidScoreResp]
            · have h5' := not_lt.mp h5
              by_cases h6 : cfg.passing_score ≤ req.score.getD 0
              · obtain ⟨b, m⟩ := award
                cases b
                · rw [submit_eq_pass_award_failed store m now req cfg email
                    h1 h2 h3 h4f h5' h6]
                  simp [specFirstCheck, h1, h2, h3, h4f, h5, h6,
                    outcomeMatches, awardFailedResp]
                · rw [submit_eq_pass_success store m now req cfg email
                    h1 h2 h3 h4f h5' h6]
                  simp [specFirstCheck, h1, h2, h3, h4f, h5, h6,
                    outcomeMatches, passedResp]
              · have h6f := not_le.mp h6
                rw [submit_eq_fail_score store award now req cfg email
                  h1 h2 h3 h4f h5' h6f]
                simp [specFirstCheck, h1, h2, h3, h4f, h5, h6,
                  outcomeMatches, failedResp]
  · by_cases h1 : (strTruthy req.session_id && strTruthy req.quiz_id
      && req.score.isSome) = true
    case neg =>
      have h1f := Bool.eq_false_iff.mpr h1
      rw [api_submit_eq_missing store award now req h1f]
      simp [specFirstCheck, h1f, outcomeMatches, missingFieldsResp]
    case pos =>
      rcases h2 : lookupConfig API_QUIZ_CONFIG (req.quiz_id.getD "") with _ | cfg
      · rw [api_submit_eq_unknown store award now req h1 h2]
        simp [specFirstCheck, h1, h2, outcomeMatches, invalidQuizResp]
      · rcases h3 : truthyVal (get_user_email_from_session
          (req.session_id.getD "")) with _ | email
        · have h3a : truthyVal (api_get_user_email_from_session
              (req.session_id.getD "")) = none := by
            rw [api_get_user_email_eq]; exact h3
          have h3b : api_get_user_email_from_session (req.session_id.getD "")
              = none ∨ api_get_user_email_from_session (req.session_id.getD "")
              = some "" := by
            rcases he : api_get_user_email_from_session (req.session_id.getD "")
              with _ | s
            · exact Or.inl rfl
            · right
              rw [he] at h3a
              by_cases hs : s = ""
              · rw [hs]
              · simp [truthyVal, hs] at h3a
          rw [api_submit_eq_bad_session store award now req cfg h1 h2 h3b]
          simp [specFirstCheck, h1, h2, h3, outcomeMatches, invalidSessionResp]
        · have h3a : truthyVal (api_get_user_email_from_session
              (req.session_id.getD "")) = some email := by
            rw [api_get_user_email_eq]; exact h3
          by_cases h4 : api_has_completed_quiz store email (req.quiz_id.getD "")
            = true
          · rw [api_submit_eq_already store award now req cfg email h1 h2 h3a h4]
            rw [api_has_completed_eq] at h4
            simp [specFirstCheck, h1, h2, h3, h4, outcomeMatches,
              alreadySubmitResp]
          · have h4f := Bool.eq_false_iff.mpr h4
            have h4s : has_completed_quiz store email (req.quiz_id.getD "")
                = false := by rw [← api_has_completed_eq]; exact h4f
            by_cases h5 : cfg.total_questions < req.score.getD 0
            · rw [api_submit_eq_bad_score store award now req cfg email
                h1 h2 h3a h4f h5]
              simp [specFirstCheck, h1, h2, h3, h4s, h5, outcomeMatches,
                invalidScoreResp]
            · have h5' := not_lt.mp h5
              by_cases h6 : cfg.passing_score ≤ req.score.getD 0
              · obtain ⟨b, m⟩ := award
                cases b
                · rw [api_submit_eq_pass_award_failed store m now req cfg email
                    h1 h2 h3a h4f h5' h6]
                  simp [specFirstCheck, h1, h2, h3, h4s, h5, h6,
                    outcomeMatches, awardFailedResp]
                · rw [api_submit_eq_pass_success store m now req cfg email
                    h1 h2 h3a h4f h5' h6]
                  simp [specFirstCheck, h1, h2, h3, h4s, h5, h6,
                    outcomeMatches, passedResp]
              · have h6f := not_le.mp h6
                rw [api_submit_eq_fail_score store award now req cfg email
                  h1 h2 h3a h4f h5' h6f]
                simp [specFirstCheck, h1, h2, h3, h4s, h5, h6,
                  outcomeMatches, failedResp]

/-- C1: over every store reachable by any sequence of start/submit/status
operations, each (user, quiz) pair has at most one completion record; a
passing submission with a succeeding adapter writes exactly the record
for its pair; and once a pair is completed, it stays completed along any
further operations and every later submit for that pair (in either
variant, when the quiz is registered there) returns the
already-completed rejection with zero award-adapter calls and an
unchanged store. -/
theorem c1_at_most_one_completion (s : Store) (hs : Reachable s) :
    (∀ u q, recordsFor s u q ≤ 1) ∧
    (∀ (u q sid : String) (v : Int) (cfg : QuizConfig) (req : SubmitRequest)
        (msg now : String),
      req.session_id = some sid → sid ≠ "" → req.quiz_id = some q →
      req.score = some v →
      truthyVal (get_user_email_from_session sid) = some u →
      lookupConfig SERVER_QUIZ_CONFIG q = some cfg →
      has_completed_quiz s u q = false →
      v ≤ cfg.total_questions → cfg.passing_score ≤ v →
      submit_quiz s (true, msg) now req =
        (passedResp v cfg,
         storeInsert s (completionKey u q) ⟨now, v, req.answers⟩,
         [awardCallOf u cfg]) ∧
      has_completed_quiz (submit_quiz s (true, msg) now req).2.1 u q = true) ∧
    (∀ u q, has_completed_quiz s u q = true →
      ∀ t, ReachableFrom s t →
        has_completed_quiz t u q = true ∧
        (∀ (req : SubmitRequest) (award : Bool × String) (now sid : String)
            (v : Int),
          req.session_id = some sid → sid ≠ "" → req.quiz_id = some q →
          req.score = some v →
          truthyVal (get_user_email_from_session sid) = some u →
          ((∃ cfg, lookupConfig SERVER_QUIZ_CONFIG q = some cfg) →
            submit_quiz t award now req = (alreadySubmitResp, t, [])) ∧
          ((∃ cfg, lookupConfig API_QUIZ_CONFIG q = some cfg) →
            handle_quiz_submit t award now req = (alreadySubmitResp, t, [])))) := by
  refine ⟨?_, ?_, ?_⟩
  · intro u q
    exact recordsFor_le_one s u q (goodKeys_of_reachableFrom [] s hs trivial)
  · intro u q sid v cfg req msg now hsid hsn hq hv hu hcfg hnc hle hge
    have hqn : q ≠ "" := server_registered_ne_empty q cfg hcfg
    have hqd : req.quiz_id.getD "" = q := by rw [hq]; rfl
    have hsd : req.session_id.getD "" = sid := by rw [hsid]; rfl
    have hvd : req.score.getD 0 = v := by rw [hv]; rfl
    have h1 := fields_check_true req sid q v hsid hsn hq hqn hv
    have hmain := submit_eq_pass_success s msg now req cfg u h1
      (by rw [hqd]; exact hcfg) (by rw [hsd]; exact hu)
      (by rw [hqd]; exact hnc) (by rw [hvd]; exact hle)
      (by rw [hvd]; exact hge)
    rw [hvd, hqd] at hmain
    refine ⟨hmain, ?_⟩
    rw [hmain]
    exact has_completed_insert_self s u q ⟨now, v, req.answers⟩
  · intro u q hc t ht
    have hct : has_completed_quiz t u q = true :=
      completed_mono_of_reachableFrom s t u q ht hc
    refine ⟨hct, ?_⟩
    intro req award now sid v hsid hsn hq hv hu
    have hqd : req.quiz_id.getD "" = q := by rw [hq]; rfl
    have hsd : req.session_id.getD "" = sid := by rw [hsid]; rfl
    constructor
    · rintro ⟨cfg, hcfg⟩
      have hqn : q ≠ "" := server_registered_ne_empty q cfg hcfg
      have h1 := fields_check_true req sid q v hsid hsn hq hqn hv
      exact submit_eq_already t award now req cfg u h1
        (by rw [hqd]; exact hcfg) (by rw [hsd]; exact hu)
        (by rw [hqd]; exact hct)
    · rintro ⟨cfg, hcfg⟩
      have hqn : q ≠ "" := api_registered_ne_empty q cfg hcfg
      have h1 := fields_check_true req sid q v hsid hsn hq hqn hv
      exact api_submit_eq_already t award now req cfg u h1
        (by rw [hqd]; exact hcfg)
        (by rw [api_get_user_email_eq, hsd]; exact hu)
        (by rw [api_has_completed_eq, hqd]; exact hct)

/-- Witness for C1, realizing the spec's end-to-end scenario: after a
passing submission with score 3 on `grooming_mastery`, the pair holds at
most one record, and a retry with score 5 is rejected as already
completed with no further award call. -/
theorem c1_at_most_one_completion_witness :
    recordsFor (submit_quiz [] (true, "m") "t"
      ⟨some "a@b.com_1_x", some "grooming_mastery", some 3, []⟩).2.1
      "a@b.com" "grooming_mastery" ≤ 1 ∧
    submit_quiz (submit_quiz [] (true, "m") "t"
      ⟨some "a@b.com_1_x", some "grooming_mastery", some 3, []⟩).2.1
      (true, "m") "t2"
      ⟨some "a@b.com_1_x", some "grooming_mastery", some 5, []⟩ =
      (alreadySubmitResp,
       (submit_quiz [] (true, "m") "t"
         ⟨some "a@b.com_1_x", some "grooming_mastery", some 3, []⟩).2.1,
       []) := by
  have hreach : Reachable (submit_quiz [] (true, "m") "t"
      ⟨some "a@b.com_1_x", some "grooming_mastery", some 3, []⟩).2.1 :=
    ReachableFrom.step_submit [] [] (true, "m") "t" _ (ReachableFrom.refl [])
  have h := c1_at_most_one_completion _ hreach
  refine ⟨h.1 "a@b.com" "grooming_mastery", ?_⟩
  have h3 := (h.2.2 "a@b.com" "grooming_mastery" (by decide) _
    (ReachableFrom.refl _)).2
    ⟨some "a@b.com_1_x", some "grooming_mastery", some 5, []⟩ (true, "m") "t2"
    "a@b.com_1_x" 5 rfl (by decide) rfl rfl (by decide)
  exact h3.1 ⟨⟨"Grooming Mastery Quiz", 5, 3, 50,
    "Completed Grooming Mastery Quiz", 1⟩, by decide⟩

/-- The `grooming_mastery` configuration, shared by both registries. -/
def groomingConfig : QuizConfig :=
  ⟨"Grooming Mastery Quiz", 5, 3, 50, "Completed Grooming Mastery Quiz", 1⟩

/-- C2 is refuted on the code: `submit_quiz` takes no lock between its
completion check (server.py line 171) and its completion write (lines
196-200), with the blocking outbound award call in between.  Sequentially
the scenario makes exactly one award call (retry rejected, zero calls),
and one submission's passing path is exactly check-then-commit; but under
the unguarded interleaving in which both concurrent submissions run the
completion check before either commits, the award adapter is invoked
twice for the same (user, quiz) — the mutual exclusion the claim invokes
does not exist in the source. -/
theorem c2_race_interleaving_double_award :
    (submit_quiz [] (true, "Points awarded successfully") "t"
      ⟨some "a@b.com_1_x", some "grooming_mastery", some 3, []⟩).2.2.length = 1 ∧
    (submit_quiz (submit_quiz [] (true, "Points awarded successfully") "t"
        ⟨some "a@b.com_1_x", some "grooming_mastery", some 3, []⟩).2.1
      (true, "Points awarded successfully") "t"
      ⟨some "a@b.com_1_x", some "grooming_mastery", some 3, []⟩).2.2 = [] ∧
    submit_quiz [] (true, "Points awarded successfully") "t"
      ⟨some "a@b.com_1_x", some "grooming_mastery", some 3, []⟩ =
      (passedResp 3 groomingConfig,
       (submitRaceCommit [] "a@b.com" "grooming_mastery" groomingConfig
         3 [] "t").1,
       (submitRaceCommit [] "a@b.com" "grooming_mastery" groomingConfig
         3 [] "t").2) ∧
    (racyDoubleSubmit [] "a@b.com" "grooming_mastery" groomingConfig
      3 [] "t").2 = 2 ∧
    recordsFor (racyDoubleSubmit [] "a@b.com" "grooming_mastery" groomingConfig
      3 [] "t").1 "a@b.com" "grooming_mastery" = 1 := by decide
